import Mathlib

/-!
Verification development for the AnalyQuizz backend (FastAPI + MongoDB).

The Python source is shallowly embedded: pure computations become Lean
functions; database handlers become functions over an explicit `DB` state;
the external Gemini AI call and the library JSON parser are passed in as
parameters (`Except String String` for the transport outcome, and
`String → Option JsonVal` for `json.loads`, where `none` models a raised
`JSONDecodeError`).  Python exceptions that a handler catches are modelled
with `Option`/`Except`; Python `float` arithmetic on scores is modelled
with `ℚ`.
-/

/-- A JSON value as produced by `json.loads`.  Numbers are modelled as `ℚ`. -/
inductive JsonVal where
  | null : JsonVal
  | bool (b : Bool) : JsonVal
  | num (q : ℚ) : JsonVal
  | str (s : String) : JsonVal
  | arr (xs : List JsonVal) : JsonVal
  | obj (fields : List (String × JsonVal)) : JsonVal

mutual

/-- Structural equality on JSON values (Python `==` restricted to values
produced by `json.loads`). -/
def JsonVal.beq : JsonVal → JsonVal → Bool
  | JsonVal.null, JsonVal.null => true
  | JsonVal.bool a, JsonVal.bool b => a == b
  | JsonVal.num a, JsonVal.num b => a == b
  | JsonVal.str a, JsonVal.str b => a == b
  | JsonVal.arr xs, JsonVal.arr ys => JsonVal.beqList xs ys
  | JsonVal.obj xs, JsonVal.obj ys => JsonVal.beqFields xs ys
  | _, _ => false

/-- Elementwise equality of JSON arrays. -/
def JsonVal.beqList : List JsonVal → List JsonVal → Bool
  | [], [] => true
  | x :: xs, y :: ys => JsonVal.beq x y && JsonVal.beqList xs ys
  | _, _ => false

/-- Entrywise equality of JSON objects (insertion order included, as for
an association list). -/
def JsonVal.beqFields : List (String × JsonVal) → List (String × JsonVal) → Bool
  | [], [] => true
  | (k1, v1) :: xs, (k2, v2) :: ys => k1 == k2 && JsonVal.beq v1 v2 && JsonVal.beqFields xs ys
  | _, _ => false

end

instance : BEq JsonVal := ⟨JsonVal.beq⟩

/-- Python substring test on character lists: `needle in s` for strings. -/
def charsHasInfixOf (s needle : List Char) : Bool :=
  match s with
  | [] => needle.isEmpty
  | _ :: rest => needle.isPrefixOf s || charsHasInfixOf rest needle

/-- Python `needle in s` for strings (substring containment). -/
def strHasSub (s needle : String) : Bool :=
  charsHasInfixOf s.data needle.data

/-- Python `needle in container` on JSON values.  `none` models a raised
`TypeError` (e.g. membership in a number, or an unhashable needle used as a
dict key). -/
def pyContains (container needle : JsonVal) : Option Bool :=
  match container, needle with
  | JsonVal.arr xs, x => some (xs.any (fun y => JsonVal.beq x y))
  | JsonVal.str s, JsonVal.str n => some (strHasSub s n)
  | JsonVal.str _, _ => none
  | JsonVal.obj fs, JsonVal.str k => some (fs.any (fun f => f.1 == k))
  | JsonVal.obj _, JsonVal.arr _ => none
  | JsonVal.obj _, JsonVal.obj _ => none
  | JsonVal.obj _, _ => some false
  | _, _ => none

/-- Python `len` on JSON values; `none` models a raised `TypeError`. -/
def pyLen : JsonVal → Option Nat
  | JsonVal.arr xs => some xs.length
  | JsonVal.str s => some s.length
  | JsonVal.obj fs => some fs.length
  | _ => none

/-- Python `q[k]` string subscription; only dicts succeed, `none` models a
raised `TypeError`/`KeyError`. -/
def jsonGet (q : JsonVal) (k : String) : Option JsonVal :=
  match q with
  | JsonVal.obj fs => fs.lookup k
  | _ => none

/-- One generated quiz question as validated by `generate_quiz_questions`
(the three field values are kept as parsed, so they are JSON values). -/
structure GenQuestion where
  question : JsonVal
  options : JsonVal
  correct_answer : JsonVal

/-- Python `str.strip()`: drop whitespace from both ends.  Implemented on
the character list so that it reduces definitionally. -/
def pyStrip (s : String) : String :=
  ⟨((s.data.dropWhile Char.isWhitespace).reverse.dropWhile Char.isWhitespace).reverse⟩

/-- Python `str.startswith(pre)`. -/
def pyStartsWith (s pre : String) : Bool :=
  pre.data.isPrefixOf s.data

/-- Python `str.endswith(suf)`. -/
def pyEndsWith (s suf : String) : Bool :=
  suf.data.reverse.isPrefixOf s.data.reverse

/-- Python slicing `s[n:]` (by characters). -/
def pyDrop (s : String) (n : Nat) : String :=
  ⟨s.data.drop n⟩

/-- Python slicing `s[:-n]` (by characters). -/
def pyDropRight (s : String) (n : Nat) : String :=
  ⟨s.data.take (s.data.length - n)⟩

/-- The markdown-fence stripping performed on the raw AI reply in
`llm_client.py` before `json.loads`. -/
def cleanLlmResponse (text : String) : String :=
  let c := pyStrip text
  let c := if pyStartsWith c "```json" then pyDrop c 7 else c
  let c := if pyEndsWith c "```" then pyDropRight c 3 else c
  pyStrip c

/-- The per-item validation loop of `generate_quiz_questions`: require the
three keys, `len(q["options"]) == 4`, and `q["correct_answer"] in
q["options"]`; `none` models any raised error (caught by the fallback). -/
def validateQuestion (q : JsonVal) : Option GenQuestion :=
  match pyContains q (JsonVal.str "question"), pyContains q (JsonVal.str "options"),
      pyContains q (JsonVal.str "correct_answer") with
  | some hq, some ho, some hc =>
    if hq && ho && hc then
      match jsonGet q "options" with
      | some opts =>
        (match pyLen opts with
          | some lenOpts =>
            if lenOpts == 4 then
              match jsonGet q "correct_answer" with
              | some ca =>
                (match pyContains opts ca with
                  | some mem =>
                    if mem then
                      match jsonGet q "question" with
                      | some qt =>
                        some { question := qt, options := opts, correct_answer := ca }
                      | none => none
                    else none
                  | none => none)
              | none => none
            else none
          | none => none)
      | none => none
    else none
  | _, _, _ => none

/-- `generate_fallback_questions` from `llm_client.py`: `num_questions`
deterministic placeholder questions referencing the difficulty. -/
def generate_fallback_questions (num_questions : Nat) (difficulty : String)
    (syllabus_text : String) : List GenQuestion :=
  let _syllabus_preview :=
    if syllabus_text.length > 200 then (syllabus_text.take 200) ++ "..." else syllabus_text
  (List.range num_questions).map (fun i =>
    { question := JsonVal.str
        ("Based on the syllabus content, which of the following is most relevant to the topic discussed? (Question "
          ++ toString (i + 1) ++ ")"),
      options := JsonVal.arr [
        JsonVal.str ("Concept related to " ++ difficulty ++ " level understanding"),
        JsonVal.str "Basic principle from the syllabus material",
        JsonVal.str "Advanced topic requiring deeper knowledge",
        JsonVal.str "Fundamental concept from the course content"],
      correct_answer := JsonVal.str ("Concept related to " ++ difficulty ++ " level understanding") })

/-- `generate_quiz_questions` from `llm_client.py`.  `api_reply` is the
outcome of `call_gemini_api` (`Except.error` models a raised exception,
including timeouts and transport errors); `parse_json` models `json.loads`
(`none` models a raised `JSONDecodeError`).  Any failure inside the `try`
block falls back to `generate_fallback_questions`. -/
def generate_quiz_questions (parse_json : String → Option JsonVal)
    (api_reply : Except String String) (num_questions : Nat)
    (difficulty : String) (syllabus_text : String) : List GenQuestion :=
  let attempt : Option (List GenQuestion) :=
    match api_reply with
    | Except.error _ => none
    | Except.ok response_text =>
      match parse_json (cleanLlmResponse response_text) with
      | some (JsonVal.arr items) =>
        (match items.mapM validateQuestion with
          | some validated_questions => some (validated_questions.take num_questions)
          | none => none)
      | some _ => none
      | none => none
  match attempt with
  | some qs => qs
  | none => generate_fallback_questions num_questions difficulty syllabus_text

/-- One entry of `detailed_results` as built by `submit_quiz` in
`routers/quiz.py` and consumed by `generate_feedback_analysis`. -/
structure DetailedResult where
  question_id : String
  question : String
  options : List String
  user_answer : String
  correct_answer : String
  is_correct : Bool
deriving DecidableEq

/-- Rendering of a score for interpolation into feedback text.  Models the
Python `{score:.1f}` format; the exact numeral rendering is abstracted to
`toString`. -/
def formatScore (score : ℚ) : String :=
  toString score

/-- The inline conditional of `generate_fallback_feedback` classifying a
score into a performance tier. -/
def performance_level (score : ℚ) : String :=
  if score ≥ 90 then "excellent"
  else if score ≥ 80 then "good"
  else if score ≥ 70 then "satisfactory"
  else "needs improvement"

/-- `generate_fallback_feedback` from `llm_client.py`: the deterministic
feedback dictionary built when the AI call or parse fails. -/
def generate_fallback_feedback (score : ℚ) (correct_count total_count : Nat)
    (detailed_results : List DetailedResult) : JsonVal :=
  let _ := detailed_results
  JsonVal.obj [
    ("overall_analysis", JsonVal.str
      ("You scored " ++ formatScore score ++ "% (" ++ toString correct_count ++ "/"
        ++ toString total_count ++ " correct), which indicates " ++ performance_level score
        ++ " understanding of the syllabus content. This assessment provides insights into your grasp of the key concepts covered in the material.")),
    ("strengths", JsonVal.arr [
      JsonVal.str (if correct_count > total_count / 2 then
        "Demonstrated understanding of core concepts" else
        "Shows effort and engagement with the material"),
      JsonVal.str (if score ≥ 60 then
        "Good performance on fundamental questions" else
        "Basic comprehension of simple topics"),
      JsonVal.str (if score ≥ 70 then
        "Consistent approach to problem-solving" else
        "Willingness to attempt all questions")]),
    ("weaknesses", JsonVal.arr [
      JsonVal.str (if score < 80 then
        "Need to strengthen understanding of complex topics" else
        "Minor gaps in advanced concepts"),
      JsonVal.str (if score < 70 then
        "Focus on detailed analysis and critical thinking" else
        "Room for improvement in nuanced understanding"),
      JsonVal.str (if score < 60 then
        "Practice application of theoretical knowledge" else
        "Fine-tune understanding of specific areas")]),
    ("topic_wise_performance", JsonVal.obj [
      ("Core Concepts", JsonVal.obj [
        ("score", JsonVal.num (min (score + 5) 100)),
        ("questions_answered", JsonVal.num (max 1 (total_count / 3)))]),
      ("Applied Knowledge", JsonVal.obj [
        ("score", JsonVal.num (max (score - 10) 0)),
        ("questions_answered", JsonVal.num (max 1 (total_count / 3)))]),
      ("Advanced Topics", JsonVal.obj [
        ("score", JsonVal.num score),
        ("questions_answered", JsonVal.num (max 1 (total_count - 2 * (total_count / 3))))])]),
    ("recommendations", JsonVal.arr [
      JsonVal.str "Review the syllabus sections corresponding to incorrect answers",
      JsonVal.str "Practice similar questions to reinforce weak areas",
      JsonVal.str "Focus on understanding concepts rather than memorization",
      JsonVal.str "Seek additional resources for challenging topics"]),
    ("study_plan", JsonVal.str
      ("Personalized Study Plan (Based on " ++ formatScore score ++ "% performance):\n\nWeek 1-2: Focus on Foundation\n- Review syllabus sections where you scored below 70%\n- Practice basic concepts and terminology\n- Create summary notes of key points\n\nWeek 3-4: Strengthen Weak Areas\n- Work on topics from incorrect answers\n- Solve practice problems and examples\n- Discuss challenging concepts with peers/instructors\n\nWeek 5-6: Advanced Practice & Review\n- Attempt more complex questions\n- Review all topics comprehensively\n- Take practice quizzes to track progress\n\nDaily Commitment: 1-2 hours of focused study\nWeekly Goal: Improve understanding in identified weak areas"))]

/-- The six fields `generate_feedback_analysis` requires in the parsed AI
reply. -/
def feedbackRequiredFields : List String :=
  ["overall_analysis", "strengths", "weaknesses", "topic_wise_performance",
   "recommendations", "study_plan"]

/-- `generate_feedback_analysis` from `llm_client.py`: clean and parse the
AI reply, require the six named fields, and on any failure fall back to
`generate_fallback_feedback`. -/
def generate_feedback_analysis (parse_json : String → Option JsonVal)
    (api_reply : Except String String) (detailed_results : List DetailedResult)
    (score : ℚ) (syllabus_text : String) : JsonVal :=
  let _ := syllabus_text
  let correct_count := (detailed_results.filter (fun r => r.is_correct)).length
  let total_count := detailed_results.length
  let attempt : Option JsonVal :=
    match api_reply with
    | Except.error _ => none
    | Except.ok response_text =>
      match parse_json (cleanLlmResponse response_text) with
      | none => none
      | some feedback =>
        match feedbackRequiredFields.mapM
            (fun field => pyContains feedback (JsonVal.str field)) with
        | none => none
        | some checks => if checks.all (fun b => b) then some feedback else none
  match attempt with
  | some feedback => feedback
  | none => generate_fallback_feedback score correct_count total_count detailed_results

/-- A question as stored inside a quiz document (`questions_with_answers`
in `routers/quiz.py`): id, text, options and the correct answer. -/
structure StoredQuestion where
  id : String
  question : String
  options : List String
  correct_answer : String
deriving DecidableEq

/-- A quiz document in the `quizzes` collection. -/
structure QuizDoc where
  id : String
  user_id : String
  syllabus_id : String
  questions : List StoredQuestion
  difficulty : String
  time_limit : Nat
  created_at : Nat
deriving DecidableEq

/-- A quiz result document in the `quiz_results` collection.  The
submitted answer map (`Dict[str, str]`) is modelled as an association
list looked up by first match. -/
structure QuizResultDoc where
  id : String
  quiz_id : String
  user_id : String
  answers : List (String × String)
  score : ℚ
  total_questions : Nat
  correct_answers : Nat
  detailed_results : List DetailedResult
  submitted_at : Nat
deriving DecidableEq

/-- A syllabus document in the `syllabi` collection. -/
structure SyllabusDoc where
  id : String
  user_id : String
  filename : String
  file_path : String
  extracted_text : String
  created_at : Nat
deriving DecidableEq

/-- A feedback document in the `feedback` collection; the six content
fields keep the JSON values produced by `generate_feedback_analysis`. -/
structure FeedbackDoc where
  id : String
  result_id : String
  user_id : String
  overall_analysis : JsonVal
  strengths : JsonVal
  weaknesses : JsonVal
  topic_wise_performance : JsonVal
  recommendations : JsonVal
  study_plan : JsonVal
  generated_at : Nat

/-- The MongoDB state visible to the routers: one list per collection. -/
structure DB where
  syllabi : List SyllabusDoc
  quizzes : List QuizDoc
  quiz_results : List QuizResultDoc
  feedback : List FeedbackDoc

/-- The body of the scoring loop of `submit_quiz` for one question:
`submission.answers.get(question_id, "")` and the equality test against
the stored correct answer. -/
def gradeQuestion (answers : List (String × String)) (question : StoredQuestion) :
    DetailedResult :=
  let user_answer := (answers.lookup question.id).getD ""
  let is_correct := user_answer == question.correct_answer
  { question_id := question.id,
    question := question.question,
    options := question.options,
    user_answer := user_answer,
    correct_answer := question.correct_answer,
    is_correct := is_correct }

/-- The scoring loop of `submit_quiz`: fold over the quiz questions in
order, counting correct answers and accumulating `detailed_results`. -/
def scoreLoop (questions : List StoredQuestion) (answers : List (String × String)) :
    Nat × List DetailedResult :=
  questions.foldl
    (fun acc question =>
      let d := gradeQuestion answers question
      (acc.1 + (if d.is_correct then 1 else 0), acc.2 ++ [d]))
    (0, [])

/-- `submit_quiz` from `routers/quiz.py`, after the quiz has been found
and ownership checked: compute the score and build the result document
that is inserted and returned. -/
def submit_quiz (quiz : QuizDoc) (answers : List (String × String))
    (user_id : String) (new_id : String) (now : Nat) : QuizResultDoc :=
  let graded := scoreLoop quiz.questions answers
  let correct_answers := graded.1
  let total_questions := quiz.questions.length
  let detailed_results := graded.2
  let score : ℚ :=
    if total_questions > 0 then ((correct_answers : ℚ) / (total_questions : ℚ)) * 100 else 0
  { id := new_id,
    quiz_id := quiz.id,
    user_id := user_id,
    answers := answers,
    score := score,
    total_questions := total_questions,
    correct_answers := correct_answers,
    detailed_results := detailed_results,
    submitted_at := now }

/-- A question as returned to the quiz taker by `GET /api/quiz/id`: only
id, text and options (`question_for_quiz` in `routers/quiz.py`). -/
structure ViewQuestion where
  id : String
  question : String
  options : List String
deriving DecidableEq

/-- The projection `get_quiz` applies to the stored questions before
responding: drop `correct_answer`, keep id, text, options, in order. -/
def questionsForQuizView (questions : List StoredQuestion) : List ViewQuestion :=
  questions.map (fun q => { id := q.id, question := q.question, options := q.options })

/-- A freshly generated question as returned by `POST /api/quiz/generate`
(id assigned by enumeration, no `correct_answer` field; the text/options
are the parsed JSON values). -/
structure GenViewQuestion where
  id : String
  question : JsonVal
  options : JsonVal

/-- The `questions_for_quiz` list built in `generate_quiz`: enumerate the
generated questions, id `str(i)`, and drop the correct answer. -/
def questionsForQuizGen (questions : List GenQuestion) : List GenViewQuestion :=
  questions.enum.map (fun iq =>
    { id := toString iq.1, question := iq.2.question, options := iq.2.options })

/-- The `questions_with_answers` list built in `generate_quiz` for
storage: enumerate the generated questions, id `str(i)`, keeping the
correct answer. -/
structure StoredGenQuestion where
  id : String
  question : JsonVal
  options : JsonVal
  correct_answer : JsonVal

/-- The stored form of freshly generated questions (`generate_quiz`). -/
def questionsWithAnswers (questions : List GenQuestion) : List StoredGenQuestion :=
  questions.enum.map (fun iq =>
    { id := toString iq.1, question := iq.2.question, options := iq.2.options,
      correct_answer := iq.2.correct_answer })

/-- The `FeedbackResponse` Pydantic model of `routers/feedback.py`. -/
structure FeedbackResponse where
  id : String
  result_id : String
  overall_analysis : JsonVal
  strengths : JsonVal
  weaknesses : JsonVal
  topic_wise_performance : JsonVal
  recommendations : JsonVal
  study_plan : JsonVal
  generated_at : Nat

/-- Building a `FeedbackResponse` from a stored feedback document, as the
handler does field by field. -/
def feedbackResponseOf (f : FeedbackDoc) : FeedbackResponse :=
  { id := f.id, result_id := f.result_id,
    overall_analysis := f.overall_analysis, strengths := f.strengths,
    weaknesses := f.weaknesses, topic_wise_performance := f.topic_wise_performance,
    recommendations := f.recommendations, study_plan := f.study_plan,
    generated_at := f.generated_at }

/-- An HTTP error: status code and detail, as raised via `HTTPException`. -/
structure HttpError where
  status : Nat
  detail : String
deriving DecidableEq

/-- `generate_feedback` (`POST /api/feedback/generate`) from
`routers/feedback.py`, for an authenticated user `user_id`.  The AI
transport outcome and the JSON parser are parameters as in
`generate_quiz_questions`; `new_id` is the object id MongoDB would assign
on insert and `now` the insertion clock.  Returns the response and the
updated database, or an HTTP error (in which case the database is
unchanged). -/
def generate_feedback (db : DB) (result_id : String) (user_id : String)
    (parse_json : String → Option JsonVal) (api_reply : Except String String)
    (new_id : String) (now : Nat) : Except HttpError (FeedbackResponse × DB) :=
  match db.quiz_results.find? (fun r => r.id == result_id && r.user_id == user_id) with
  | none => Except.error { status := 404, detail := "Quiz result not found" }
  | some quiz_result =>
    match db.feedback.find? (fun f => f.result_id == result_id) with
    | some existing_feedback => Except.ok (feedbackResponseOf existing_feedback, db)
    | none =>
      match db.quizzes.find? (fun q => q.id == quiz_result.quiz_id) with
      | none => Except.error { status := 404, detail := "Quiz not found" }
      | some quiz =>
        match db.syllabi.find? (fun s => s.id == quiz.syllabus_id) with
        | none => Except.error { status := 404, detail := "Syllabus not found" }
        | some syllabus =>
          let feedback_data := generate_feedback_analysis parse_json api_reply
            quiz_result.detailed_results quiz_result.score syllabus.extracted_text
          match jsonGet feedback_data "overall_analysis",
              jsonGet feedback_data "strengths", jsonGet feedback_data "weaknesses",
              jsonGet feedback_data "topic_wise_performance",
              jsonGet feedback_data "recommendations", jsonGet feedback_data "study_plan" with
          | some oa, some st, some wk, some tp, some rc, some sp =>
            let feedback_doc : FeedbackDoc :=
              { id := new_id, result_id := result_id, user_id := user_id,
                overall_analysis := oa, strengths := st, weaknesses := wk,
                topic_wise_performance := tp, recommendations := rc, study_plan := sp,
                generated_at := now }
            Except.ok (feedbackResponseOf feedback_doc,
              { db with feedback := db.feedback ++ [feedback_doc] })
          | _, _, _, _, _, _ =>
            Except.error { status := 500, detail := "Failed to generate feedback" }

/-- `delete_syllabus` (`DELETE /api/syllabus/id`) from
`routers/syllabus.py`, for an authenticated user `user_id`.  `files` is
the set of stored upload paths, modelled as a list.  On success returns
the updated database and file list. -/
def delete_syllabus (db : DB) (files : List String)
    (syllabus_id user_id : String) : Except HttpError (DB × List String) :=
  match db.syllabi.find? (fun s => s.id == syllabus_id && s.user_id == user_id) with
  | none => Except.error { status := 404, detail := "Syllabus not found" }
  | some syllabus =>
    let quizzes2 := db.quizzes.filter (fun q => !(q.syllabus_id == syllabus_id))
    let files2 := if files.contains syllabus.file_path
      then files.erase syllabus.file_path else files
    let syllabi2 := db.syllabi.eraseP (fun s => s.id == syllabus_id)
    Except.ok ({ db with syllabi := syllabi2, quizzes := quizzes2 }, files2)

/-- The page-concatenation loop shared by both branches of
`extract_text_from_pdf`: append each non-empty page text followed by a
newline.  A page for which the library returned `None` is modelled as the
empty string (both are falsy in the `if text:` guard). -/
def joinPages (pages : List String) : String :=
  pages.foldl (fun acc text => if text ≠ "" then acc ++ text ++ "\n" else acc) ""

/-- `extract_text_from_pdf` from `utils/pdf_processor.py`.  The two PDF
libraries are parameters: `Except.error` models a raised library
exception, `Except.ok pages` the per-page extracted texts.  Returns the
extracted text or the raised error message. -/
def extract_text_from_pdf (file_exists : Bool)
    (pypdf2_pages : Except String (List String))
    (pdfplumber_pages : Except String (List String)) : Except String String :=
  if !file_exists then Except.error "PDF file not found"
  else
    let primary_result : Option String :=
      match pypdf2_pages with
      | Except.ok pages =>
        let extracted_text := joinPages pages
        if (pyStrip extracted_text).length > 50 then some (pyStrip extracted_text) else none
      | Except.error _ => none
    match primary_result with
    | some text => Except.ok text
    | none =>
      match pdfplumber_pages with
      | Except.ok pages =>
        let extracted_text := joinPages pages
        if pyStrip extracted_text ≠ "" then Except.ok (pyStrip extracted_text)
        else Except.error ("Failed to extract text from PDF: "
          ++ "No text could be extracted from the PDF")
      | Except.error e => Except.error ("Failed to extract text from PDF: " ++ e)

/-- The JWT payload built by `create_access_token` in `routers/auth.py`:
the claims of `data` plus the computed `exp`.  Time is measured in
minutes from an arbitrary epoch. -/
structure TokenPayload where
  sub : String
  exp : Int
deriving DecidableEq

/-- `create_access_token` from `routers/auth.py`: expiry is `now +
expires_delta` when a delta is passed, else `now + 15` minutes. -/
def create_access_token (sub : String) (now : Int) (expires_delta : Option Int) :
    TokenPayload :=
  match expires_delta with
  | some delta => { sub := sub, exp := now + delta }
  | none => { sub := sub, exp := now + 15 }

/-- The expiry-minutes computation shared by `signup` and `login`:
`int(os.getenv("JWT_ACCESS_TOKEN_EXPIRE_MINUTES", 30))`, with the
environment variable modelled as an already-parsed optional integer. -/
def accessTokenExpireMinutes (env_minutes : Option Int) : Int :=
  env_minutes.getD 30

/-- The token issued by `signup`: an explicit `expires_delta` of the
configured minutes is always passed. -/
def signup_token (email : String) (now : Int) (env_minutes : Option Int) : TokenPayload :=
  create_access_token email now (some (accessTokenExpireMinutes env_minutes))

/-- The token issued by `login`: same call shape as `signup`. -/
def login_token (email : String) (now : Int) (env_minutes : Option Int) : TokenPayload :=
  create_access_token email now (some (accessTokenExpireMinutes env_minutes))

/-- C9: a call to the token creator without an explicit expiry delta sets
expiry 15 minutes from issuance; the signup and login call sites pass an
explicit delta of the configured minutes, defaulting to 30 when the
configuration variable is unset. -/
theorem C9_token_expiry_defaults :
    (∀ (sub : String) (now : Int),
      create_access_token sub now none = { sub := sub, exp := now + 15 }) ∧
    (∀ (email : String) (now : Int),
      signup_token email now none = { sub := email, exp := now + 30 }) ∧
    (∀ (email : String) (now : Int),
      login_token email now none = { sub := email, exp := now + 30 }) ∧
    (∀ (email : String) (now m : Int),
      signup_token email now (some m) = { sub := email, exp := now + m }) ∧
    (∀ (email : String) (now m : Int),
      login_token email now (some m) = { sub := email, exp := now + m }) :=
  ⟨fun _ _ => rfl, fun _ _ => rfl, fun _ _ => rfl, fun _ _ _ => rfl, fun _ _ _ => rfl⟩

/-- C7: the fallback feedback generator classifies the tier by the score
thresholds 90/80/70, assigns Core Concepts `min (score+5) 100`, Applied
Knowledge `max (score-10) 0` and Advanced Topics the score itself, keeps a
study plan depending only on the score, and is a deterministic function of
the score and counts (independent of the detailed results). -/
theorem C7_fallback_feedback :
    ∀ (score : ℚ) (correct_count total_count : Nat) (d : List DetailedResult),
    (90 ≤ score → performance_level score = "excellent") ∧
    (80 ≤ score ∧ score < 90 → performance_level score = "good") ∧
    (70 ≤ score ∧ score < 80 → performance_level score = "satisfactory") ∧
    (score < 70 → performance_level score = "needs improvement") ∧
    jsonGet (generate_fallback_feedback score correct_count total_count d)
        "topic_wise_performance" =
      some (JsonVal.obj [
        ("Core Concepts", JsonVal.obj [
          ("score", JsonVal.num (min (score + 5) 100)),
          ("questions_answered", JsonVal.num (max 1 (total_count / 3)))]),
        ("Applied Knowledge", JsonVal.obj [
          ("score", JsonVal.num (max (score - 10) 0)),
          ("questions_answered", JsonVal.num (max 1 (total_count / 3)))]),
        ("Advanced Topics", JsonVal.obj [
          ("score", JsonVal.num score),
          ("questions_answered", JsonVal.num (max 1 (total_count - 2 * (total_count / 3))))])]) ∧
    (∀ (c2 t2 : Nat) (d2 : List DetailedResult),
      jsonGet (generate_fallback_feedback score c2 t2 d2) "study_plan" =
        jsonGet (generate_fallback_feedback score correct_count total_count d) "study_plan") ∧
    (∀ d2 : List DetailedResult,
      generate_fallback_feedback score correct_count total_count d2 =
        generate_fallback_feedback score correct_count total_count d) := by
  intro score correct_count total_count d
  refine ⟨?_, ?_, ?_, ?_, rfl, fun c2 t2 d2 => rfl, fun d2 => rfl⟩
  · intro h
    unfold performance_level
    rw [if_pos h]
  · rintro ⟨h1, h2⟩
    unfold performance_level
    rw [if_neg (not_le.mpr h2), if_pos h1]
  · rintro ⟨h1, h2⟩
    unfold performance_level
    rw [if_neg (not_le.mpr (lt_of_lt_of_le h2 (by norm_num))),
      if_neg (not_le.mpr h2), if_pos h1]
  · intro h
    unfold performance_level
    rw [if_neg (not_le.mpr (lt_of_lt_of_le h (by norm_num))),
      if_neg (not_le.mpr (lt_of_lt_of_le h (by norm_num))), if_neg (not_le.mpr h)]

/-- Witness for C7 at score 85, 3 of 5 correct: tier "good" and the
three-bucket topic breakdown. -/
theorem C7_fallback_feedback_witness :
    performance_level 85 = "good" ∧
    jsonGet (generate_fallback_feedback 85 3 5 []) "topic_wise_performance" =
      some (JsonVal.obj [
        ("Core Concepts", JsonVal.obj [
          ("score", JsonVal.num (min (85 + 5) 100)),
          ("questions_answered", JsonVal.num (max 1 (5 / 3)))]),
        ("Applied Knowledge", JsonVal.obj [
          ("score", JsonVal.num (max (85 - 10) 0)),
          ("questions_answered", JsonVal.num (max 1 (5 / 3)))]),
        ("Advanced Topics", JsonVal.obj [
          ("score", JsonVal.num 85),
          ("questions_answered", JsonVal.num (max 1 (5 - 2 * (5 / 3))))])]) := by
  have h := C7_fallback_feedback 85 3 5 []
  exact ⟨h.2.1 ⟨by norm_num, by norm_num⟩, h.2.2.2.2.1⟩

/-- The primary (PyPDF2) branch fails to produce a usable result: either
the library raised, or the trimmed concatenation has at most 50
characters. -/
def primaryNotUsable : Except String (List String) → Prop
  | Except.error _ => True
  | Except.ok pages => (pyStrip (joinPages pages)).length ≤ 50

lemma extract_missing_file (p s : Except String (List String)) :
    extract_text_from_pdf false p s = Except.error "PDF file not found" := rfl

lemma extract_primary_ok (pages : List String) (s : Except String (List String))
    (h : 50 < (pyStrip (joinPages pages)).length) :
    extract_text_from_pdf true (Except.ok pages) s = Except.ok (pyStrip (joinPages pages)) := by
  simp only [extract_text_from_pdf, Bool.not_true, Bool.false_eq_true, if_false]
  rw [if_pos h]

lemma extract_secondary_ok (p : Except String (List String)) (pages2 : List String)
    (hp : primaryNotUsable p) (h2 : pyStrip (joinPages pages2) ≠ "") :
    extract_text_from_pdf true p (Except.ok pages2) = Except.ok (pyStrip (joinPages pages2)) := by
  cases p with
  | error e =>
    simp only [extract_text_from_pdf, Bool.not_true, Bool.false_eq_true, if_false]
    rw [if_pos h2]
  | ok pages =>
    simp only [primaryNotUsable] at hp
    simp only [extract_text_from_pdf, Bool.not_true, Bool.false_eq_true, if_false]
    rw [if_neg (not_lt.mpr hp)]
    dsimp only
    rw [if_pos h2]

lemma extract_both_fail (p : Except String (List String)) (pages2 : List String)
    (hp : primaryNotUsable p) (h2 : pyStrip (joinPages pages2) = "") :
    extract_text_from_pdf true p (Except.ok pages2) =
      Except.error ("Failed to extract text from PDF: "
        ++ "No text could be extracted from the PDF") := by
  cases p with
  | error e =>
    simp only [extract_text_from_pdf, Bool.not_true, Bool.false_eq_true, if_false]
    rw [if_neg (by simp [h2])]
  | ok pages =>
    simp only [primaryNotUsable] at hp
    simp only [extract_text_from_pdf, Bool.not_true, Bool.false_eq_true, if_false]
    rw [if_neg (not_lt.mpr hp)]
    dsimp only
    rw [if_neg (by simp [h2])]

lemma extract_secondary_raises (p : Except String (List String)) (e : String)
    (hp : primaryNotUsable p) :
    extract_text_from_pdf true p (Except.error e) =
      Except.error ("Failed to extract text from PDF: " ++ e) := by
  cases p with
  | error e0 => simp [extract_text_from_pdf]
  | ok pages =>
    simp only [primaryNotUsable] at hp
    simp only [extract_text_from_pdf, Bool.not_true, Bool.false_eq_true, if_false]
    rw [if_neg (not_lt.mpr hp)]

lemma extract_ok_ne_empty (fe : Bool) (p s : Except String (List String)) (t : String)
    (h : extract_text_from_pdf fe p s = Except.ok t) : t ≠ "" := by
  cases fe with
  | false => rw [extract_missing_file] at h; exact Except.noConfusion h
  | true =>
    have hcore : ∀ hp : primaryNotUsable p, t ≠ "" := by
      intro hp
      cases s with
      | ok pages2 =>
        by_cases hne : pyStrip (joinPages pages2) ≠ ""
        · rw [extract_secondary_ok p pages2 hp hne] at h
          injection h with h2
          exact h2 ▸ hne
        · push_neg at hne
          rw [extract_both_fail p pages2 hp hne] at h
          exact Except.noConfusion h
      | error e =>
        rw [extract_secondary_raises p e hp] at h
        exact Except.noConfusion h
    cases p with
    | ok pages =>
      by_cases h50 : 50 < (pyStrip (joinPages pages)).length
      · rw [extract_primary_ok pages s h50] at h
        injection h with h2
        intro habs
        rw [h2, habs] at h50
        simp at h50
      · exact hcore (not_lt.mp h50)
    | error e0 => exact hcore trivial

/-- C5: extraction errors on a missing file; a primary result whose
trimmed page concatenation exceeds 50 characters is returned immediately;
otherwise a non-empty trimmed secondary concatenation is returned; when
neither extractor yields usable text the function fails with an explicit
error, and no success ever carries the empty string. -/
theorem C5_extract_text_fallback :
    (∀ (p s : Except String (List String)),
      extract_text_from_pdf false p s = Except.error "PDF file not found") ∧
    (∀ (pages : List String) (s : Except String (List String)),
      50 < (pyStrip (joinPages pages)).length →
      extract_text_from_pdf true (Except.ok pages) s = Except.ok (pyStrip (joinPages pages))) ∧
    (∀ (p : Except String (List String)) (pages2 : List String),
      primaryNotUsable p → pyStrip (joinPages pages2) ≠ "" →
      extract_text_from_pdf true p (Except.ok pages2) = Except.ok (pyStrip (joinPages pages2))) ∧
    (∀ (p : Except String (List String)) (pages2 : List String),
      primaryNotUsable p → pyStrip (joinPages pages2) = "" →
      extract_text_from_pdf true p (Except.ok pages2) =
        Except.error ("Failed to extract text from PDF: "
          ++ "No text could be extracted from the PDF")) ∧
    (∀ (p : Except String (List String)) (e : String),
      primaryNotUsable p →
      extract_text_from_pdf true p (Except.error e) =
        Except.error ("Failed to extract text from PDF: " ++ e)) ∧
    (∀ (fe : Bool) (p s : Except String (List String)) (t : String),
      extract_text_from_pdf fe p s = Except.ok t → t ≠ "") :=
  ⟨extract_missing_file, extract_primary_ok, extract_secondary_ok,
    extract_both_fail, extract_secondary_raises, extract_ok_ne_empty⟩

/-- Witness for C5: a raising primary plus a secondary extracting one
short page succeeds with the trimmed text; primary and secondary both
empty fails with the explicit error; a missing file fails. -/
theorem C5_extract_text_fallback_witness :
    extract_text_from_pdf true (Except.error "broken xref") (Except.ok ["short text", ""]) =
      Except.ok (pyStrip (joinPages ["short text", ""])) ∧
    extract_text_from_pdf true (Except.ok [""]) (Except.ok []) =
      Except.error ("Failed to extract text from PDF: "
        ++ "No text could be extracted from the PDF") ∧
    extract_text_from_pdf false (Except.ok ["x"]) (Except.ok ["y"]) =
      Except.error "PDF file not found" := by
  refine ⟨C5_extract_text_fallback.2.2.1 (Except.error "broken xref") ["short text", ""]
      trivial (by decide),
    C5_extract_text_fallback.2.2.2.1 (Except.ok [""]) []
      (by decide : (pyStrip (joinPages [""])).length ≤ 50) (by decide),
    C5_extract_text_fallback.1 _ _⟩

lemma questionsForQuizView_eq_of_proj (qs1 qs2 : List StoredQuestion)
    (h : qs1.map (fun q => (q.id, q.question, q.options)) =
      qs2.map (fun q => (q.id, q.question, q.options))) :
    questionsForQuizView qs1 = questionsForQuizView qs2 := by
  have hview : ∀ qs : List StoredQuestion,
      questionsForQuizView qs = (qs.map (fun q => (q.id, q.question, q.options))).map
        (fun t => ({ id := t.1, question := t.2.1, options := t.2.2 } : ViewQuestion)) := by
    intro qs
    simp [questionsForQuizView, List.map_map]
  rw [hview, hview, h]

lemma questionsForQuizGen_eq_of_proj_aux (gs1 : List GenQuestion) :
    ∀ (n : Nat) (gs2 : List GenQuestion),
      gs1.map (fun q => (q.question, q.options)) = gs2.map (fun q => (q.question, q.options)) →
      (List.enumFrom n gs1).map (fun iq =>
          ({ id := toString iq.1, question := iq.2.question, options := iq.2.options } :
            GenViewQuestion)) =
        (List.enumFrom n gs2).map (fun iq =>
          ({ id := toString iq.1, question := iq.2.question, options := iq.2.options } :
            GenViewQuestion)) := by
  induction gs1 with
  | nil =>
    intro n gs2 h
    cases gs2 with
    | nil => rfl
    | cons b bs => simp at h
  | cons a as ih =>
    intro n gs2 h
    cases gs2 with
    | nil => simp at h
    | cons b bs =>
      simp only [List.map_cons, List.cons.injEq, Prod.mk.injEq] at h
      obtain ⟨⟨hq, ho⟩, htl⟩ := h
      simp only [List.enumFrom, List.map_cons]
      rw [ih (n + 1) bs htl]
      simp [hq, ho]

/-- C6: the question lists sent back by quiz generation and quiz retrieval
are functions of the questions' id, text and options only — two stored
quizzes differing only in correct answers produce identical response
question lists, so no `correct_answer` is revealed. -/
theorem C6_no_correct_answer_leak :
    (∀ qs1 qs2 : List StoredQuestion,
      qs1.map (fun q => (q.id, q.question, q.options)) =
        qs2.map (fun q => (q.id, q.question, q.options)) →
      questionsForQuizView qs1 = questionsForQuizView qs2) ∧
    (∀ gs1 gs2 : List GenQuestion,
      gs1.map (fun q => (q.question, q.options)) = gs2.map (fun q => (q.question, q.options)) →
      questionsForQuizGen gs1 = questionsForQuizGen gs2) := by
  constructor
  · exact questionsForQuizView_eq_of_proj
  · intro gs1 gs2 h
    exact questionsForQuizGen_eq_of_proj_aux gs1 0 gs2 h

/-- Witness for C6: one-question quizzes that agree except for the stored
correct answer yield identical response question lists. -/
theorem C6_no_correct_answer_leak_witness :
    questionsForQuizView
        [{ id := "0", question := "Q1", options := ["a", "b", "c", "d"], correct_answer := "a" }] =
      questionsForQuizView
        [{ id := "0", question := "Q1", options := ["a", "b", "c", "d"], correct_answer := "b" }] ∧
    questionsForQuizGen
        [{ question := JsonVal.str "Q1",
           options := JsonVal.arr [JsonVal.str "a", JsonVal.str "b"],
           correct_answer := JsonVal.str "a" }] =
      questionsForQuizGen
        [{ question := JsonVal.str "Q1",
           options := JsonVal.arr [JsonVal.str "a", JsonVal.str "b"],
           correct_answer := JsonVal.str "b" }] :=
  ⟨C6_no_correct_answer_leak.1 _ _ (by decide), C6_no_correct_answer_leak.2 _ _ rfl⟩

lemma scoreLoop_aux (ans : List (String × String)) :
    ∀ (qs : List StoredQuestion) (n : Nat) (acc : List DetailedResult),
      qs.foldl (fun acc question =>
          let d := gradeQuestion ans question
          (acc.1 + (if d.is_correct then 1 else 0), acc.2 ++ [d])) (n, acc) =
        (n + (qs.filter (fun q => ((ans.lookup q.id).getD "") == q.correct_answer)).length,
          acc ++ qs.map (gradeQuestion ans)) := by
  intro qs
  induction qs with
  | nil => intro n acc; simp
  | cons q qs ih =>
    intro n acc
    simp only [List.foldl_cons]
    rw [ih]
    simp only [gradeQuestion, List.filter_cons, List.map_cons]
    by_cases h : (((ans.lookup q.id).getD "") == q.correct_answer) = true
    · simp only [h, if_true, List.length_cons, Prod.mk.injEq]
      refine ⟨by omega, by simp [gradeQuestion]⟩
    · simp only [h, if_false, Prod.mk.injEq, Bool.false_eq_true]
      refine ⟨by omega, by simp [gradeQuestion]⟩

lemma scoreLoop_eq (questions : List StoredQuestion) (ans : List (String × String)) :
    scoreLoop questions ans =
      ((questions.filter (fun q => ((ans.lookup q.id).getD "") == q.correct_answer)).length,
        questions.map (gradeQuestion ans)) := by
  unfold scoreLoop
  rw [scoreLoop_aux ans questions 0 []]
  simp

/-- A stored quiz whose single question has the empty string as its
correct answer (reachable: the generation validator accepts an options
list containing the empty string with the empty string as correct
answer). -/
def emptyAnswerQuiz : QuizDoc :=
  { id := "q1", user_id := "u1", syllabus_id := "s1",
    questions := [{ id := "0", question := "Q", options := ["", "a", "b", "c"], correct_answer := "" }],
    difficulty := "medium", time_limit := 30, created_at := 0 }

/-- Counterexample to C1 as stated: a stored question whose correct answer
is the empty string is counted CORRECT for a question id absent from the
submitted answer map, because the missing answer defaults to the empty
string and then equals the stored correct answer. -/
theorem C1_counterexample :
    (submit_quiz emptyAnswerQuiz [] "u1" "r1" 0).correct_answers = 1 ∧
    (submit_quiz emptyAnswerQuiz [] "u1" "r1" 0).detailed_results.map
      (fun d => d.is_correct) = [true] := by
  constructor
  · decide
  · decide

/-- C1 (amended): submission counts exactly the questions whose looked-up
answer (empty string when absent) equals the stored correct answer, totals
the question count, scores `100 × correct/total` (0 for an empty quiz),
and the detailed record is the per-question record of every question in
original order; an absent answer is read as the empty string and is
counted correct exactly when the stored correct answer is itself empty. -/
theorem C1_submit_scoring :
    ∀ (quiz : QuizDoc) (answers : List (String × String)) (uid nid : String) (now : Nat),
      (submit_quiz quiz answers uid nid now).correct_answers =
        (quiz.questions.filter
          (fun q => ((answers.lookup q.id).getD "") == q.correct_answer)).length ∧
      (submit_quiz quiz answers uid nid now).total_questions = quiz.questions.length ∧
      (submit_quiz quiz answers uid nid now).score =
        (if 0 < quiz.questions.length then
          100 * ((submit_quiz quiz answers uid nid now).correct_answers : ℚ) /
            (quiz.questions.length : ℚ)
        else 0) ∧
      (submit_quiz quiz answers uid nid now).detailed_results =
        quiz.questions.map (gradeQuestion answers) ∧
      (submit_quiz quiz answers uid nid now).detailed_results.length =
        quiz.questions.length ∧
      (∀ q ∈ quiz.questions, answers.lookup q.id = none →
        (gradeQuestion answers q).user_answer = "" ∧
        ((gradeQuestion answers q).is_correct = true ↔ q.correct_answer = "")) := by
  intro quiz answers uid nid now
  have hc : (submit_quiz quiz answers uid nid now).correct_answers =
      (quiz.questions.filter
        (fun q => ((answers.lookup q.id).getD "") == q.correct_answer)).length := by
    show (scoreLoop quiz.questions answers).1 = _
    rw [scoreLoop_eq]
  have hd : (submit_quiz quiz answers uid nid now).detailed_results =
      quiz.questions.map (gradeQuestion answers) := by
    show (scoreLoop quiz.questions answers).2 = _
    rw [scoreLoop_eq]
  refine ⟨hc, rfl, ?_, hd, by rw [hd]; simp, ?_⟩
  · show (if quiz.questions.length > 0 then
        (((scoreLoop quiz.questions answers).1 : ℚ) / (quiz.questions.length : ℚ)) * 100
      else 0) = _
    split
    · rw [show ((submit_quiz quiz answers uid nid now).correct_answers : ℚ) =
          ((scoreLoop quiz.questions answers).1 : ℚ) from rfl]
      ring
    · rfl
  · intro q hq hnone
    constructor
    · show ((answers.lookup q.id).getD "") = ""
      rw [hnone]
      rfl
    · show ((((answers.lookup q.id).getD "") == q.correct_answer) = true) ↔
        q.correct_answer = ""
      rw [hnone]
      show (("" == q.correct_answer) = true) ↔ q.correct_answer = ""
      rw [beq_iff_eq]
      exact eq_comm

/-- The concrete quiz used in the C1 witness: two questions, ids 0 and 1. -/
def twoQuestionQuiz : QuizDoc :=
  { id := "q2", user_id := "u1", syllabus_id := "s1",
    questions := [
      { id := "0", question := "QA", options := ["a", "b", "c", "d"], correct_answer := "a" },
      { id := "1", question := "QB", options := ["a", "b", "c", "d"], correct_answer := "b" }],
    difficulty := "medium", time_limit := 30, created_at := 0 }

/-- Witness for C1 (amended) on a two-question quiz with one answered
correctly and one unanswered. -/
theorem C1_submit_scoring_witness :
    (submit_quiz twoQuestionQuiz [("0", "a")] "u1" "r1" 0).correct_answers = 1 ∧
    (gradeQuestion [("0", "a")]
        { id := "1", question := "QB", options := ["a", "b", "c", "d"], correct_answer := "b" }
      ).user_answer = "" ∧
    ¬ (gradeQuestion [("0", "a")]
        { id := "1", question := "QB", options := ["a", "b", "c", "d"], correct_answer := "b" }
      ).is_correct = true := by
  have h := C1_submit_scoring twoQuestionQuiz [("0", "a")] "u1" "r1" 0
  have habsent := h.2.2.2.2.2
    { id := "1", question := "QB", options := ["a", "b", "c", "d"], correct_answer := "b" }
    (by decide) (by decide)
  refine ⟨h.1.trans (by decide), habsent.1, ?_⟩
  intro hcorr
  exact absurd (habsent.2.mp hcorr) (by decide)

/-- C10: answer-map entries whose key is not a question id of the quiz
cannot influence scoring — two submitted maps that agree on the quiz's
question ids produce the same score, correct count and detailed results. -/
theorem C10_extraneous_answers_ignored :
    ∀ (quiz : QuizDoc) (a1 a2 : List (String × String)) (uid nid1 nid2 : String)
      (now1 now2 : Nat),
      (∀ q ∈ quiz.questions, a1.lookup q.id = a2.lookup q.id) →
      (submit_quiz quiz a1 uid nid1 now1).score = (submit_quiz quiz a2 uid nid2 now2).score ∧
      (submit_quiz quiz a1 uid nid1 now1).correct_answers =
        (submit_quiz quiz a2 uid nid2 now2).correct_answers ∧
      (submit_quiz quiz a1 uid nid1 now1).detailed_results =
        (submit_quiz quiz a2 uid nid2 now2).detailed_results := by
  intro quiz a1 a2 uid nid1 nid2 now1 now2 h
  have hfilter : quiz.questions.filter
        (fun q => ((a1.lookup q.id).getD "") == q.correct_answer) =
      quiz.questions.filter (fun q => ((a2.lookup q.id).getD "") == q.correct_answer) := by
    apply List.filter_congr
    intro q hq
    rw [h q hq]
  have hmap : quiz.questions.map (gradeQuestion a1) = quiz.questions.map (gradeQuestion a2) := by
    apply List.map_congr_left
    intro q hq
    show gradeQuestion a1 q = gradeQuestion a2 q
    unfold gradeQuestion
    rw [h q hq]
  have hc1 : (scoreLoop quiz.questions a1).1 = (scoreLoop quiz.questions a2).1 := by
    rw [scoreLoop_eq, scoreLoop_eq]
    exact congrArg List.length hfilter
  refine ⟨?_, hc1, ?_⟩
  · show (if quiz.questions.length > 0 then
        (((scoreLoop quiz.questions a1).1 : ℚ) / (quiz.questions.length : ℚ)) * 100
      else 0) =
      (if quiz.questions.length > 0 then
        (((scoreLoop quiz.questions a2).1 : ℚ) / (quiz.questions.length : ℚ)) * 100
      else 0)
    rw [hc1]
  · show (scoreLoop quiz.questions a1).2 = (scoreLoop quiz.questions a2).2
    rw [scoreLoop_eq, scoreLoop_eq]
    exact hmap

/-- Witness for C10: adding an entry under an id that is not any question
id leaves score, count and details unchanged. -/
theorem C10_extraneous_answers_ignored_witness :
    (submit_quiz twoQuestionQuiz [("0", "a"), ("1", "c")] "u1" "r1" 0).score =
      (submit_quiz twoQuestionQuiz [("0", "a"), ("1", "c"), ("zzz", "b")] "u1" "r2" 7).score ∧
    (submit_quiz twoQuestionQuiz [("0", "a"), ("1", "c")] "u1" "r1" 0).correct_answers =
      (submit_quiz twoQuestionQuiz [("0", "a"), ("1", "c"), ("zzz", "b")] "u1" "r2" 7
        ).correct_answers ∧
    (submit_quiz twoQuestionQuiz [("0", "a"), ("1", "c")] "u1" "r1" 0).detailed_results =
      (submit_quiz twoQuestionQuiz [("0", "a"), ("1", "c"), ("zzz", "b")] "u1" "r2" 7
        ).detailed_results :=
  C10_extraneous_answers_ignored twoQuestionQuiz [("0", "a"), ("1", "c")]
    [("0", "a"), ("1", "c"), ("zzz", "b")] "u1" "r1" "r2" 0 7 (by decide)

lemma generate_fallback_questions_length (n : Nat) (d t : String) :
    (generate_fallback_questions n d t).length = n := by
  simp [generate_fallback_questions]

lemma generate_quiz_questions_error (pj : String → Option JsonVal) (msg : String)
    (n : Nat) (d t : String) :
    generate_quiz_questions pj (Except.error msg) n d t = generate_fallback_questions n d t :=
  rfl

lemma generate_quiz_questions_length_le (pj : String → Option JsonVal)
    (reply : Except String String) (n : Nat) (d t : String) :
    (generate_quiz_questions pj reply n d t).length ≤ n := by
  cases reply with
  | error msg =>
    rw [generate_quiz_questions_error, generate_fallback_questions_length]
  | ok txt =>
    unfold generate_quiz_questions
    dsimp only
    cases hp : pj (cleanLlmResponse txt) with
    | none => simp [generate_fallback_questions_length]
    | some v =>
      cases v with
      | arr items =>
        dsimp only
        cases hm : items.mapM validateQuestion with
        | none => simp [generate_fallback_questions_length]
        | some vs =>
          dsimp only
          rw [List.length_take]
          exact min_le_left n vs.length
      | null => simp [generate_fallback_questions_length]
      | bool b => simp [generate_fallback_questions_length]
      | num q => simp [generate_fallback_questions_length]
      | str s => simp [generate_fallback_questions_length]
      | obj fs => simp [generate_fallback_questions_length]

lemma validateQuestion_shape (q : JsonVal) (g : GenQuestion)
    (h : validateQuestion q = some g) :
    pyLen g.options = some 4 ∧ pyContains g.options g.correct_answer = some true := by
  unfold validateQuestion at h
  split at h
  case _ hq ho hc =>
    split at h
    case isTrue =>
      split at h
      case _ opts hopts =>
        split at h
        case _ lenOpts hlen =>
          split at h
          case isTrue hlen4 =>
            split at h
            case _ ca hca =>
              split at h
              case _ mem hmem =>
                split at h
                case isTrue hmemtrue =>
                  split at h
                  case _ qt hqt =>
                    injection h with h2
                    subst h2
                    refine ⟨?_, ?_⟩
                    · rw [hlen]
                      exact congrArg some (beq_iff_eq.mp hlen4)
                    · rw [hmem, hmemtrue]
                  case _ => exact Option.noConfusion h
                case isFalse => exact Option.noConfusion h
              case _ => exact Option.noConfusion h
            case _ => exact Option.noConfusion h
          case isFalse => exact Option.noConfusion h
        case _ => exact Option.noConfusion h
      case _ => exact Option.noConfusion h
    case isFalse => exact Option.noConfusion h
  case _ => exact Option.noConfusion h

lemma mapM_validateQuestion_mem :
    ∀ (items : List JsonVal) (vs : List GenQuestion),
      items.mapM validateQuestion = some vs →
      ∀ g ∈ vs, ∃ q ∈ items, validateQuestion q = some g := by
  intro items
  induction items with
  | nil =>
    intro vs h g hg
    simp only [List.mapM_nil, pure, Option.some.injEq] at h
    subst h
    simp at hg
  | cons x xs ih =>
    intro vs h g hg
    rw [List.mapM_cons] at h
    simp only [Option.bind_eq_bind, Option.bind_eq_some, pure, Option.some.injEq] at h
    obtain ⟨y, hy, ys, hys, hvs⟩ := h
    subst hvs
    rcases List.mem_cons.mp hg with hgy | hgys
    · exact ⟨x, List.mem_cons_self x xs, hgy ▸ hy⟩
    · obtain ⟨q, hqmem, hq⟩ := ih ys hys g hgys
      exact ⟨q, List.mem_cons_of_mem x hqmem, hq⟩

lemma mapM_validateQuestion_none :
    ∀ (items : List JsonVal) (q : JsonVal), q ∈ items → validateQuestion q = none →
      items.mapM validateQuestion = none := by
  intro items
  induction items with
  | nil => intro q hq; simp at hq
  | cons x xs ih =>
    intro q hq hnone
    rw [List.mapM_cons]
    rcases List.mem_cons.mp hq with rfl | hqs
    · rw [hnone]
      rfl
    · cases hx : validateQuestion x with
      | none => rfl
      | some y =>
        rw [ih q hqs hnone]
        rfl

lemma generate_fallback_questions_shape (n : Nat) (d t : String) (g : GenQuestion)
    (h : g ∈ generate_fallback_questions n d t) :
    pyLen g.options = some 4 ∧ pyContains g.options g.correct_answer = some true := by
  simp only [generate_fallback_questions, List.mem_map, List.mem_range] at h
  obtain ⟨i, hi, rfl⟩ := h
  refine ⟨rfl, ?_⟩
  show some (List.any _ _) = some true
  simp [JsonVal.beq]

lemma generate_quiz_questions_shape (pj : String → Option JsonVal)
    (reply : Except String String) (n : Nat) (d t : String) (g : GenQuestion)
    (h : g ∈ generate_quiz_questions pj reply n d t) :
    pyLen g.options = some 4 ∧ pyContains g.options g.correct_answer = some true := by
  cases reply with
  | error msg =>
    rw [generate_quiz_questions_error] at h
    exact generate_fallback_questions_shape n d t g h
  | ok txt =>
    unfold generate_quiz_questions at h
    dsimp only at h
    revert h
    cases hp : pj (cleanLlmResponse txt) with
    | none =>
      intro h
      exact generate_fallback_questions_shape n d t g h
    | some v =>
      cases v with
      | arr items =>
        dsimp only
        cases hm : items.mapM validateQuestion with
        | none =>
          intro h
          exact generate_fallback_questions_shape n d t g h
        | some vs =>
          dsimp only
          intro h
          obtain ⟨q, hqmem, hq⟩ :=
            mapM_validateQuestion_mem items vs hm g (List.take_subset n vs h)
          exact validateQuestion_shape q g hq
      | null => intro h; exact generate_fallback_questions_shape n d t g h
      | bool b => intro h; exact generate_fallback_questions_shape n d t g h
      | num q0 => intro h; exact generate_fallback_questions_shape n d t g h
      | str s => intro h; exact generate_fallback_questions_shape n d t g h
      | obj fs => intro h; exact generate_fallback_questions_shape n d t g h

lemma generate_quiz_questions_rejects (pj : String → Option JsonVal)
    (txt : String) (n : Nat) (d t : String) (parsed : JsonVal)
    (hp : pj (cleanLlmResponse txt) = some parsed)
    (hbad : (∀ items, parsed ≠ JsonVal.arr items) ∨
      (∃ items, parsed = JsonVal.arr items ∧ ∃ q ∈ items, validateQuestion q = none)) :
    generate_quiz_questions pj (Except.ok txt) n d t = generate_fallback_questions n d t := by
  unfold generate_quiz_questions
  dsimp only
  rw [hp]
  rcases hbad with hnot | ⟨items, rfl, q, hq, hnone⟩
  · cases parsed with
    | arr items => exact absurd rfl (hnot items)
    | null => rfl
    | bool b => rfl
    | num q0 => rfl
    | str s => rfl
    | obj fs => rfl
  · dsimp only
    rw [mapM_validateQuestion_none items q hq hnone]

lemma generate_quiz_questions_parse_fail (pj : String → Option JsonVal)
    (txt : String) (n : Nat) (d t : String)
    (h : pj (cleanLlmResponse txt) = none) :
    generate_quiz_questions pj (Except.ok txt) n d t = generate_fallback_questions n d t := by
  unfold generate_quiz_questions
  dsimp only
  rw [h]

/-- Counterexample to C2 as stated: a well-formed AI reply that parses to
the EMPTY JSON array passes validation, so generation returns 0 questions
although 1 was requested (the success path only truncates, it never pads). -/
theorem C2_counterexample :
    (generate_quiz_questions
        (fun s => if s = "[]" then some (JsonVal.arr []) else none)
        (Except.ok "[]") 1 "medium" "syllabus text").length ≠ 1 := by
  decide

/-- C2 (amended): generation never raises and returns AT MOST `count`
questions; every internal error (transport failure, JSON parse failure)
is replaced by the deterministic fallback, which produces exactly `count`
placeholder questions referencing the requested difficulty. -/
theorem C2_generation_never_fails :
    ∀ (pj : String → Option JsonVal) (n : Nat) (d t : String),
      (∀ msg, generate_quiz_questions pj (Except.error msg) n d t =
        generate_fallback_questions n d t) ∧
      (∀ txt, pj (cleanLlmResponse txt) = none →
        generate_quiz_questions pj (Except.ok txt) n d t =
          generate_fallback_questions n d t) ∧
      (generate_fallback_questions n d t).length = n ∧
      (∀ reply, (generate_quiz_questions pj reply n d t).length ≤ n) :=
  fun pj n d t =>
    ⟨fun msg => generate_quiz_questions_error pj msg n d t,
      fun txt h => generate_quiz_questions_parse_fail pj txt n d t h,
      generate_fallback_questions_length n d t,
      fun reply => generate_quiz_questions_length_le pj reply n d t⟩

/-- Witness for C2 (amended): a parser that always fails sends generation
to the fallback, which has exactly the requested length. -/
theorem C2_generation_never_fails_witness :
    generate_quiz_questions (fun _ => none) (Except.ok "oops") 2 "hard" "syl" =
      generate_fallback_questions 2 "hard" "syl" ∧
    (generate_fallback_questions 2 "hard" "syl").length = 2 :=
  ⟨(C2_generation_never_fails (fun _ => none) 2 "hard" "syl").2.1 "oops" rfl,
    (C2_generation_never_fails (fun _ => none) 2 "hard" "syl").2.2.1⟩

lemma snd_mem_of_mem_enumFrom {α : Type} :
    ∀ (l : List α) (k : Nat) (p : Nat × α), p ∈ List.enumFrom k l → p.2 ∈ l := by
  intro l
  induction l with
  | nil => intro k p h; simp [List.enumFrom] at h
  | cons a as ih =>
    intro k p h
    simp only [List.enumFrom] at h
    rcases List.mem_cons.mp h with rfl | hmem
    · exact List.mem_cons_self a as
    · exact List.mem_cons_of_mem a (ih (k + 1) p hmem)

/-- C3: a parsed reply that is not a list, or any of whose items fails the
field/4-option/membership validation, sends the whole generation to the
fallback; consequently every question generation returns — and hence
every question a quiz persists — has `len(options) == 4` with the correct
answer contained in the options, and at most `count` items are kept. -/
theorem C3_validation_invariant :
    ∀ (pj : String → Option JsonVal) (n : Nat) (d t : String),
      (∀ (txt : String) (parsed : JsonVal),
        pj (cleanLlmResponse txt) = some parsed →
        ((∀ items, parsed ≠ JsonVal.arr items) ∨
          (∃ items, parsed = JsonVal.arr items ∧ ∃ q ∈ items, validateQuestion q = none)) →
        generate_quiz_questions pj (Except.ok txt) n d t =
          generate_fallback_questions n d t) ∧
      (∀ (reply : Except String String) (g : GenQuestion),
        g ∈ generate_quiz_questions pj reply n d t →
        pyLen g.options = some 4 ∧ pyContains g.options g.correct_answer = some true) ∧
      (∀ reply, (generate_quiz_questions pj reply n d t).length ≤ n) ∧
      (∀ (reply : Except String String) (sq : StoredGenQuestion),
        sq ∈ questionsWithAnswers (generate_quiz_questions pj reply n d t) →
        pyLen sq.options = some 4 ∧ pyContains sq.options sq.correct_answer = some true) := by
  intro pj n d t
  refine ⟨fun txt parsed hp hbad =>
      generate_quiz_questions_rejects pj txt n d t parsed hp hbad,
    fun reply g h => generate_quiz_questions_shape pj reply n d t g h,
    fun reply => generate_quiz_questions_length_le pj reply n d t, ?_⟩
  intro reply sq hsq
  simp only [questionsWithAnswers, List.mem_map] at hsq
  obtain ⟨p, hpmem, rfl⟩ := hsq
  have hq : p.2 ∈ generate_quiz_questions pj reply n d t :=
    snd_mem_of_mem_enumFrom _ 0 p hpmem
  exact generate_quiz_questions_shape pj reply n d t p.2 hq

/-- Witness for C3: a reply parsing to `[1]` (whose single item is not an
object) is rejected and replaced by the fallback. -/
theorem C3_validation_invariant_witness :
    generate_quiz_questions
        (fun s => if s = "[1]" then some (JsonVal.arr [JsonVal.num 1]) else none)
        (Except.ok "[1]") 2 "easy" "syl" =
      generate_fallback_questions 2 "easy" "syl" ∧
    (generate_quiz_questions
        (fun s => if s = "[1]" then some (JsonVal.arr [JsonVal.num 1]) else none)
        (Except.ok "[1]") 2 "easy" "syl").length ≤ 2 :=
  ⟨(C3_validation_invariant
      (fun s => if s = "[1]" then some (JsonVal.arr [JsonVal.num 1]) else none)
      2 "easy" "syl").1 "[1]" (JsonVal.arr [JsonVal.num 1]) rfl
      (Or.inr ⟨[JsonVal.num 1], rfl, JsonVal.num 1, by simp, rfl⟩),
    (C3_validation_invariant
      (fun s => if s = "[1]" then some (JsonVal.arr [JsonVal.num 1]) else none)
      2 "easy" "syl").2.2.1 (Except.ok "[1]")⟩

/-- C4: when a feedback record for the result id already exists, a second
generation request returns that stored record (same id and fields) with
the database unchanged (no second insert), and the outcome does not
depend on the AI transport result or the parser at all. -/
theorem C4_feedback_idempotent :
    ∀ (db : DB) (result_id user_id : String)
      (pj1 pj2 : String → Option JsonVal) (ai1 ai2 : Except String String)
      (nid1 nid2 : String) (now1 now2 : Nat) (r : QuizResultDoc) (f : FeedbackDoc),
      db.quiz_results.find? (fun x => x.id == result_id && x.user_id == user_id) = some r →
      db.feedback.find? (fun x => x.result_id == result_id) = some f →
      generate_feedback db result_id user_id pj1 ai1 nid1 now1 =
        Except.ok (feedbackResponseOf f, db) ∧
      generate_feedback db result_id user_id pj1 ai1 nid1 now1 =
        generate_feedback db result_id user_id pj2 ai2 nid2 now2 := by
  intro db rid uid pj1 pj2 ai1 ai2 nid1 nid2 now1 now2 r f hr hf
  have h1 : ∀ (pj : String → Option JsonVal) (ai : Except String String)
      (nid : String) (now : Nat),
      generate_feedback db rid uid pj ai nid now = Except.ok (feedbackResponseOf f, db) := by
    intro pj ai nid now
    unfold generate_feedback
    rw [hr, hf]
  exact ⟨h1 pj1 ai1 nid1 now1, (h1 pj1 ai1 nid1 now1).trans (h1 pj2 ai2 nid2 now2).symm⟩

/-- A stored feedback document used by the C4 witness. -/
def exampleFeedbackDoc : FeedbackDoc :=
  { id := "f1", result_id := "r1", user_id := "u1",
    overall_analysis := JsonVal.str "solid work", strengths := JsonVal.arr [],
    weaknesses := JsonVal.arr [], topic_wise_performance := JsonVal.obj [],
    recommendations := JsonVal.arr [], study_plan := JsonVal.str "keep practicing",
    generated_at := 3 }

/-- A stored quiz result used by the C4 witness. -/
def exampleQuizResultDoc : QuizResultDoc :=
  { id := "r1", quiz_id := "q1", user_id := "u1", answers := [], score := 100,
    total_questions := 1, correct_answers := 1, detailed_results := [], submitted_at := 0 }

/-- A database holding one quiz result and its existing feedback, for the
C4 witness. -/
def feedbackDbExample : DB :=
  { syllabi := [], quizzes := [],
    quiz_results := [exampleQuizResultDoc],
    feedback := [exampleFeedbackDoc] }

/-- Witness for C4: with the feedback already stored, a repeat request
returns it unchanged whether the AI is down or up. -/
theorem C4_feedback_idempotent_witness :
    generate_feedback feedbackDbExample "r1" "u1" (fun _ => none)
        (Except.error "service down") "f2" 9 =
      Except.ok (feedbackResponseOf exampleFeedbackDoc, feedbackDbExample) ∧
    generate_feedback feedbackDbExample "r1" "u1" (fun _ => none)
        (Except.error "service down") "f2" 9 =
      generate_feedback feedbackDbExample "r1" "u1" (fun _ => some JsonVal.null)
        (Except.ok "reply") "f3" 11 :=
  C4_feedback_idempotent feedbackDbExample "r1" "u1" (fun _ => none)
    (fun _ => some JsonVal.null) (Except.error "service down") (Except.ok "reply")
    "f2" "f3" 9 11 exampleQuizResultDoc exampleFeedbackDoc (by rfl) (by rfl)

/-- C8: deleting a syllabus (found by id for the requesting user) removes
every quiz referencing it and the stored file, leaves `quiz_results` and
`feedback` untouched, and — under the reachable-state invariants that
quizzes for the syllabus and syllabi sharing the id belong to the owner —
touches no entity of another user. -/
theorem C8_delete_syllabus_cascade :
    ∀ (db : DB) (files : List String) (sid uid : String) (syl : SyllabusDoc),
      db.syllabi.find? (fun s => s.id == sid && s.user_id == uid) = some syl →
      (∀ q ∈ db.quizzes, q.syllabus_id = sid → q.user_id = uid) →
      (∀ s ∈ db.syllabi, s.id = sid → s.user_id = uid) →
      ∃ (db2 : DB) (files2 : List String),
        delete_syllabus db files sid uid = Except.ok (db2, files2) ∧
        db2.quiz_results = db.quiz_results ∧
        db2.feedback = db.feedback ∧
        (∀ q : QuizDoc, q ∈ db2.quizzes ↔ q ∈ db.quizzes ∧ q.syllabus_id ≠ sid) ∧
        (∀ q ∈ db.quizzes, q ∉ db2.quizzes → q.user_id = uid) ∧
        files2 = files.erase syl.file_path ∧
        syl.user_id = uid ∧
        (∀ s ∈ db.syllabi, s.user_id ≠ uid → s ∈ db2.syllabi) ∧
        (∀ s : SyllabusDoc, s ∈ db2.syllabi → s ∈ db.syllabi) := by
  intro db files sid uid syl hfind hquiz hsyl
  refine ⟨⟨db.syllabi.eraseP (fun s => s.id == sid),
      db.quizzes.filter (fun q => !(q.syllabus_id == sid)),
      db.quiz_results, db.feedback⟩,
    (if files.contains syl.file_path then files.erase syl.file_path else files),
    ?_, rfl, rfl, ?_, ?_, ?_, ?_, ?_, ?_⟩
  · unfold delete_syllabus
    rw [hfind]
  · intro q
    constructor
    · intro hq
      have hm := List.mem_filter.mp hq
      refine ⟨hm.1, ?_⟩
      have hb := hm.2
      simp only [Bool.not_eq_true', beq_eq_false_iff_ne, ne_eq] at hb
      exact hb
    · rintro ⟨hq, hne⟩
      exact List.mem_filter.mpr ⟨hq, by simp [hne]⟩
  · intro q hq hnot
    by_cases hs : q.syllabus_id = sid
    · exact hquiz q hq hs
    · exact absurd (List.mem_filter.mpr ⟨hq, by simp [hs]⟩) hnot
  · by_cases hc : files.contains syl.file_path
    · rw [if_pos hc]
    · rw [if_neg hc, List.erase_of_not_mem]
      intro hmem
      exact absurd (List.elem_iff.mpr hmem) (by simpa using hc)
  · have hp := List.find?_some hfind
    simp only [Bool.and_eq_true, beq_iff_eq] at hp
    exact hp.2
  · intro s hs0 hneq
    have hpfalse : ¬ ((fun s : SyllabusDoc => s.id == sid) s = true) := by
      simp only [beq_iff_eq]
      intro heq
      exact hneq (hsyl s hs0 heq)
    exact (List.mem_eraseP_of_neg hpfalse :
      s ∈ db.syllabi.eraseP (fun s => s.id == sid) ↔ s ∈ db.syllabi).mpr hs0
  · intro s hs2
    exact List.mem_of_mem_eraseP hs2

/-- The syllabus deleted in the C8 witness. -/
def exampleSyllabus : SyllabusDoc :=
  { id := "s1", user_id := "u1", filename := "algo.pdf",
    file_path := "uploads/20240101_algo.pdf", extracted_text := "graphs", created_at := 0 }

/-- The database for the C8 witness: one syllabus, one quiz referencing
it, one unrelated quiz, one quiz result and one feedback record. -/
def deleteDbExample : DB :=
  { syllabi := [exampleSyllabus],
    quizzes := [
      { id := "q1", user_id := "u1", syllabus_id := "s1", questions := [],
        difficulty := "easy", time_limit := 30, created_at := 0 },
      { id := "q2", user_id := "u1", syllabus_id := "s9", questions := [],
        difficulty := "hard", time_limit := 30, created_at := 0 }],
    quiz_results := [exampleQuizResultDoc],
    feedback := [exampleFeedbackDoc] }

/-- Witness for C8 on the concrete database above. -/
theorem C8_delete_syllabus_cascade_witness :
    ∃ (db2 : DB) (files2 : List String),
      delete_syllabus deleteDbExample ["uploads/20240101_algo.pdf"] "s1" "u1" =
        Except.ok (db2, files2) ∧
      db2.quiz_results = deleteDbExample.quiz_results ∧
      db2.feedback = deleteDbExample.feedback ∧
      (∀ q : QuizDoc, q ∈ db2.quizzes ↔ q ∈ deleteDbExample.quizzes ∧ q.syllabus_id ≠ "s1") ∧
      (∀ q ∈ deleteDbExample.quizzes, q ∉ db2.quizzes → q.user_id = "u1") ∧
      files2 = ["uploads/20240101_algo.pdf"].erase exampleSyllabus.file_path ∧
      exampleSyllabus.user_id = "u1" ∧
      (∀ s ∈ deleteDbExample.syllabi, s.user_id ≠ "u1" → s ∈ db2.syllabi) ∧
      (∀ s : SyllabusDoc, s ∈ db2.syllabi → s ∈ deleteDbExample.syllabi) :=
  C8_delete_syllabus_cascade deleteDbExample ["uploads/20240101_algo.pdf"] "s1" "u1"
    exampleSyllabus (by rfl) (by decide) (by decide)
